import Mathlib

/-!
Verification of the rain-window core of meteoswiss-cli.

This file embeds the windowed precipitation query `graphRainInWindow` and
the decision wrapper `checkRain` from `cmd/meteocli/rain.go`, together with
the data model of `internal/api/models.go`, and proves the behavioural
properties of the rain command against them.

Modelling choices:
* `time.Time` instants and `time.Duration` values are integers counting
  nanoseconds (a Go `time.Duration` is an int64 nanosecond count, and
  `time.UnixMilli ms` denotes the instant `ms * 1000000` nanoseconds after
  the Unix epoch).  `t1.After t2` is `t2 < t1`, `t.Add d` is `t + d`.
* `float64` precipitation values are modelled as rationals.  The Go code
  only copies and compares these values (`p > maxMM`), it never performs
  arithmetic on them, so the order-theoretic behaviour — which is all the
  code observes — is preserved exactly by any linearly ordered carrier.
* the `%.1f` rendering inside messages is modelled by `fmt1`; no theorem
  depends on the digits it produces, only on the constant template text
  surrounding it.
-/

namespace MeteoCli

/-- GraphData (internal/api/models.go): the precipitation graph payload.
`start` and `startLowResolution` are Unix-millisecond timestamps; the Go
zero value `0` is what an absent JSON field decodes to. -/
structure GraphData where
  start : Int
  startLowResolution : Int
  precipitation10m : List ℚ
  precipitation1h : List ℚ
  deriving DecidableEq

/-- CurrentWeather (internal/api/models.go). -/
structure CurrentWeather where
  time : Int
  icon : Int
  temperature : ℚ
  deriving DecidableEq

/-- DayForecast (internal/api/models.go): a single day's forecast data. -/
structure DayForecast where
  dayDate : String
  iconDay : Int
  temperatureMax : ℚ
  temperatureMin : ℚ
  precipitation : ℚ
  precipitationMin : ℚ
  precipitationMax : ℚ
  deriving DecidableEq

/-- Warning (internal/api/models.go). -/
structure Warning where
  warnType : Int
  warnLevel : Int
  validFrom : String
  validTo : String
  regions : List String
  headline : String
  body : String
  deriving DecidableEq

/-- PLZDetail (internal/api/models.go): the API response for a postal code.
`graph` is a nullable pointer in Go, hence an `Option` here. -/
structure PLZDetail where
  currentWeather : CurrentWeather
  forecast : List DayForecast
  warnings : List Warning
  graph : Option GraphData
  deriving DecidableEq

/-- rainResult (cmd/meteocli/rain.go): the structured result of the rain
command. -/
structure rainResult where
  plz : Int
  withinMinutes : Int
  rainExpected : Bool
  maxRainMM : ℚ
  message : String
  deriving DecidableEq

/-- hiInterval (cmd/meteocli/rain.go): `10 * time.Minute`, in nanoseconds. -/
def hiInterval : Int := 600000000000

/-- loInterval (cmd/meteocli/rain.go): `60 * time.Minute`, in nanoseconds. -/
def loInterval : Int := 3600000000000

/-- One `time.Minute` in nanoseconds. -/
def minuteNs : Int := 60000000000

/-- `time.UnixMilli ms` as a nanosecond instant. -/
def unixMilli (ms : Int) : Int := ms * 1000000

/-- The best-so-far update performed by the loop body of `graphRainInWindow`:
`if p > maxMM { maxMM = p }`. -/
def maxStep (m p : ℚ) : ℚ := if m < p then p else m

/-- One `for i, p := range series` loop of `graphRainInWindow`, scanning the
slots of a single series.  Slot `i` starts at `base + i*w`; the loop breaks
at the first slot with `slotStart.After(end)` and skips slots with
`!slotEnd.After(now)`; otherwise it sets `ok = true` and folds the value
into the running maximum. -/
def scanSeries (base w now endT : Int) : Nat → List ℚ → ℚ → Bool → ℚ × Bool
  | _, [], m, ok => (m, ok)
  | i, p :: ps, m, ok =>
    let slotStart := base + (i : Int) * w
    if endT < slotStart then (m, ok)
    else if slotStart + w ≤ now then scanSeries base w now endT (i + 1) ps m ok
    else scanSeries base w now endT (i + 1) ps (maxStep m p) true

/-- graphRainInWindow (cmd/meteocli/rain.go): maximum precipitation value
across all graph slots overlapping `[now, now+window]`, and whether any
slot overlapped at all.  Returns `(0, false)` immediately when `g.start`
is zero; skips the low-resolution series when `g.startLowResolution` is
zero. -/
def graphRainInWindow (g : GraphData) (now window : Int) : ℚ × Bool :=
  if g.start = 0 then (0, false)
  else
    let endT := now + window
    let hi := scanSeries (unixMilli g.start) hiInterval now endT 0 g.precipitation10m 0 false
    if g.startLowResolution ≠ 0 then
      scanSeries (unixMilli g.startLowResolution) loInterval now endT 0 g.precipitation1h hi.1 hi.2
    else hi

/-- Decimal rendering of a rational with one fractional digit, standing in
for Go's `%.1f`.  No theorem in this file depends on the digits produced,
only on the constant message text around them. -/
def fmt1 (q : ℚ) : String :=
  let n : Int := round (q * 10)
  let s := if n < 0 then "-" else ""
  s ++ toString (n.natAbs / 10) ++ "." ++ toString (n.natAbs % 10)

/-- Message of the graph branch of `checkRain` when rain is expected. -/
def msgRainExpected (maxMM : ℚ) (within : Int) : String :=
  "Rain expected: up to " ++ fmt1 maxMM ++ " mm in the next " ++ toString within ++ " min"

/-- Message of the graph branch of `checkRain` when no rain is expected. -/
def msgNoRain (within : Int) : String :=
  "No rain expected in the next " ++ toString within ++ " min"

/-- Message of the forecast fallback of `checkRain` when rain is possible. -/
def msgRainPossibleToday (p : ℚ) : String :=
  "Rain possible today: " ++ fmt1 p ++ " mm forecast (hourly data unavailable)"

/-- Message of the forecast fallback of `checkRain` when today is dry. -/
def msgNoRainToday : String := "No rain expected today (hourly data unavailable)"

/-- Message of `checkRain` when no data at all is available. -/
def msgUnavailable : String := "Rain data unavailable"

/-- checkRain (cmd/meteocli/rain.go): decides whether rain is expected in
the next `within` minutes.  Uses the graph when present with a non-empty
high-resolution series and a successful window query; otherwise falls back
to the first daily forecast entry; otherwise reports data unavailable. -/
def checkRain (plz within : Int) (detail : PLZDetail) (now : Int) : rainResult :=
  let base : rainResult :=
    { plz := plz, withinMinutes := within, rainExpected := false, maxRainMM := 0, message := "" }
  let fromGraph : Option rainResult :=
    match detail.graph with
    | some g =>
      if 0 < g.precipitation10m.length then
        let q := graphRainInWindow g now (within * minuteNs)
        if q.2 = true then
          some { base with
                 maxRainMM := q.1
                 rainExpected := decide (0 < q.1)
                 message := if 0 < q.1 then msgRainExpected q.1 within else msgNoRain within }
        else none
      else none
    | none => none
  match fromGraph with
  | some r => r
  | none =>
    match detail.forecast with
    | today :: _ =>
      { base with
        maxRainMM := today.precipitation
        rainExpected := decide (0 < today.precipitation)
        message :=
          if 0 < today.precipitation then msgRainPossibleToday today.precipitation
          else msgNoRainToday }
    | [] => { base with message := msgUnavailable }

/-- Variant of `checkRain` in which every operation that can fail at run
time in Go — dereferencing the graph pointer and indexing `Forecast[0]` —
is made explicit through `Option`, `none` standing for a panic.  Used to
state that `checkRain` is total on every input. -/
def checkRainChecked (plz within : Int) (detail : PLZDetail) (now : Int) : Option rainResult :=
  let base : rainResult :=
    { plz := plz, withinMinutes := within, rainExpected := false, maxRainMM := 0, message := "" }
  let fromGraph : Option (Option rainResult) :=
    match detail.graph with
    | some g =>
      if 0 < g.precipitation10m.length then
        let q := graphRainInWindow g now (within * minuteNs)
        if q.2 = true then
          some (some { base with
                       maxRainMM := q.1
                       rainExpected := decide (0 < q.1)
                       message := if 0 < q.1 then msgRainExpected q.1 within else msgNoRain within })
        else some none
      else some none
    | none => some none
  match fromGraph with
  | none => none
  | some (some r) => some r
  | some none =>
    if 0 < detail.forecast.length then
      match detail.forecast[0]? with
      | some today =>
        some { base with
               maxRainMM := today.precipitation
               rainExpected := decide ((0 : ℚ) < today.precipitation)
               message :=
                 if (0 : ℚ) < today.precipitation then msgRainPossibleToday today.precipitation
                 else msgNoRainToday }
      | none => none
    else
      some { base with message := msgUnavailable }

/-- Sanity check mirroring TestGraphRainInWindow_rainInWindow: the slot at
+20 min holds 3.5 mm, a 30-minute window anchored at the series start sees
it. -/
example :
    graphRainInWindow ⟨1000000, 0, [0, 0, mkRat 7 2, 0, 0, 0], []⟩ (unixMilli 1000000)
      (30 * minuteNs) = (mkRat 7 2, true) := by decide

/-- Sanity check mirroring TestGraphRainInWindow_rainOutsideWindow: rain
only at +60 min is invisible to a 30-minute window. -/
example :
    graphRainInWindow ⟨1000000, 0, [0, 0, 0, 0, 0, 0, 5], []⟩ (unixMilli 1000000)
      (30 * minuteNs) = (0, true) := by decide

/-- Sanity check mirroring TestGraphRainInWindow_lowResSlot: three dry
high-resolution slots, then one rainy low-resolution slot right after;
a query anchored 30 minutes in picks up the low-resolution slot. -/
example :
    graphRainInWindow ⟨1000000, 2800000, [0, 0, 0], [4]⟩
      (unixMilli 1000000 + 30 * minuteNs) (60 * minuteNs) = (4, true) := by decide

/-- Sanity check mirroring TestGraphRainInWindow_nowAfterData. -/
example :
    graphRainInWindow ⟨1000000, 0, [0, 0, 0], []⟩
      (unixMilli 1000000 + 60 * minuteNs) (30 * minuteNs) = (0, false) := by decide

/-- Sanity check mirroring TestCheckRain_fallbackToDailyRainy. -/
example :
    (checkRain 8000 30
      ⟨⟨0, 0, 0⟩, [⟨"2026-02-20", 0, 0, 0, mkRat 11 2, 0, 0⟩], [], none⟩ 0).maxRainMM
      = mkRat 11 2 := by decide

/-- The slot-overlap test as the specification words it: the half-open slot
`[slotStart, slotStart + w)` overlaps the window `[now, endT]` iff
`slotStart ≤ endT` and `slotStart + w > now`. -/
def overlapsB (now endT slotStart w : Int) : Bool :=
  decide (slotStart ≤ endT ∧ now < slotStart + w)

/-- Values of those slots of one series (slot `i` starting at `base + i*w`)
that overlap the window `[now, endT]`, listed from slot index `i` on. -/
def overlappingValsFrom (base w now endT : Int) : Nat → List ℚ → List ℚ
  | _, [] => []
  | i, p :: ps =>
    if overlapsB now endT (base + (i : Int) * w) w then
      p :: overlappingValsFrom base w now endT (i + 1) ps
    else overlappingValsFrom base w now endT (i + 1) ps

/-- Values of the slots that `graphRainInWindow` actually considers: the
high-resolution slots, plus the low-resolution slots only when the
low-resolution start timestamp is nonzero. -/
def graphOverlappingVals (g : GraphData) (now window : Int) : List ℚ :=
  overlappingValsFrom (unixMilli g.start) hiInterval now (now + window) 0 g.precipitation10m ++
    (if g.startLowResolution ≠ 0 then
      overlappingValsFrom (unixMilli g.startLowResolution) loInterval now (now + window) 0
        g.precipitation1h
    else [])

/-- Values of the overlapping slots exactly as the specification counts
them: both series are taken at face value, slots starting at the recorded
start instants, with no special treatment of zero timestamps. -/
def claimOverlappingVals (g : GraphData) (now window : Int) : List ℚ :=
  overlappingValsFrom (unixMilli g.start) hiInterval now (now + window) 0 g.precipitation10m ++
    overlappingValsFrom (unixMilli g.startLowResolution) loInterval now (now + window) 0
      g.precipitation1h

/-- Once a slot starts past the window end, so do all later slots of the
series, and none of them overlaps. -/
lemma overlappingValsFrom_eq_nil {base w now endT : Int} (hw : 0 < w) :
    ∀ (ps : List ℚ) (i : Nat), endT < base + (i : Int) * w →
      overlappingValsFrom base w now endT i ps = [] := by
  intro ps
  induction ps with
  | nil => intro i _; rfl
  | cons p ps ih =>
    intro i h
    have hov : overlapsB now endT (base + (i : Int) * w) w = false := by
      simp only [overlapsB, decide_eq_false_iff_not]
      exact fun hc => absurd hc.1 (not_le.2 h)
    have hnext : endT < base + ((i + 1 : Nat) : Int) * w := by
      push_cast
      have : ((i : Int) + 1) * w = (i : Int) * w + w := by ring
      rw [this]
      linarith
    simp only [overlappingValsFrom, hov, if_false, Bool.false_eq_true]
    exact ih (i + 1) hnext

/-- The scanning loop of `graphRainInWindow` computes exactly the fold of
the best-so-far update over the overlapping slot values, and reports
whether any slot overlapped. -/
lemma scanSeries_eq {base w now endT : Int} (hw : 0 < w) :
    ∀ (ps : List ℚ) (i : Nat) (m : ℚ) (ok : Bool),
      scanSeries base w now endT i ps m ok =
        ((overlappingValsFrom base w now endT i ps).foldl maxStep m,
          ok || !(overlappingValsFrom base w now endT i ps).isEmpty) := by
  intro ps
  induction ps with
  | nil => intro i m ok; simp [scanSeries, overlappingValsFrom]
  | cons p ps ih =>
    intro i m ok
    by_cases h1 : endT < base + (i : Int) * w
    · have hnil : overlappingValsFrom base w now endT i (p :: ps) = [] :=
        overlappingValsFrom_eq_nil hw _ _ h1
      rw [hnil]
      simp [scanSeries, h1]
    · by_cases h2 : base + (i : Int) * w + w ≤ now
      · have hov : overlapsB now endT (base + (i : Int) * w) w = false := by
          simp only [overlapsB, decide_eq_false_iff_not]
          exact fun hc => absurd hc.2 (not_lt.2 h2)
        simp only [scanSeries, overlappingValsFrom, hov, if_false, Bool.false_eq_true]
        rw [if_neg h1, if_pos h2]
        exact ih (i + 1) m ok
      · have hov : overlapsB now endT (base + (i : Int) * w) w = true := by
          simp only [overlapsB, decide_eq_true_eq]
          exact ⟨not_lt.1 h1, not_le.1 h2⟩
        simp only [scanSeries, overlappingValsFrom, hov, if_true]
        rw [if_neg h1, if_neg h2]
        rw [ih (i + 1) (maxStep m p) true]
        simp

/-- Positivity of the two slot widths. -/
lemma hiInterval_pos : (0 : Int) < hiInterval := by norm_num [hiInterval]

/-- Positivity of the low-resolution slot width. -/
lemma loInterval_pos : (0 : Int) < loInterval := by norm_num [loInterval]

/-- Non-emptiness of an appended list, in `Bool` form. -/
lemma not_isEmpty_append (A B : List ℚ) :
    (!(A ++ B).isEmpty) = (!A.isEmpty || !B.isEmpty) := by
  cases A <;> simp

/-- As long as the high-resolution start timestamp is nonzero,
`graphRainInWindow` returns the fold of the best-so-far update over the
slot values it considers, and whether that list is non-empty. -/
lemma graphRainInWindow_eq (g : GraphData) (now window : Int) (h0 : g.start ≠ 0) :
    graphRainInWindow g now window =
      ((graphOverlappingVals g now window).foldl maxStep 0,
        !(graphOverlappingVals g now window).isEmpty) := by
  unfold graphRainInWindow graphOverlappingVals
  rw [if_neg h0]
  by_cases h1 : g.startLowResolution ≠ 0
  · rw [if_pos h1, if_pos h1]
    rw [scanSeries_eq hiInterval_pos, scanSeries_eq loInterval_pos]
    simp only [List.foldl_append, Bool.false_or, Prod.mk.injEq]
    rw [not_isEmpty_append]
    exact ⟨trivial, rfl⟩
  · rw [if_neg h1, if_neg h1]
    rw [scanSeries_eq hiInterval_pos]
    simp

/-- The best-so-far update is the binary maximum. -/
lemma maxStep_eq_max (m p : ℚ) : maxStep m p = max m p := by
  unfold maxStep
  rcases lt_or_le m p with h | h
  · rw [if_pos h, max_eq_right h.le]
  · rw [if_neg (not_lt.2 h), max_eq_left h]

/-- Folding the best-so-far update is folding the maximum. -/
lemma foldl_maxStep_eq (l : List ℚ) : ∀ m, l.foldl maxStep m = l.foldl max m := by
  induction l with
  | nil => intro m; rfl
  | cons p ps ih => intro m; simp only [List.foldl_cons, maxStep_eq_max, ih]

/-- The seed never exceeds the fold of the maximum. -/
lemma le_foldl_max (l : List ℚ) : ∀ m : ℚ, m ≤ l.foldl max m := by
  induction l with
  | nil => intro m; exact le_refl m
  | cons p ps ih =>
    intro m
    exact le_trans (le_max_left m p) (ih (max m p))

/-- Every member of the list is bounded by the fold of the maximum. -/
lemma mem_le_foldl_max (l : List ℚ) : ∀ (m p : ℚ), p ∈ l → p ≤ l.foldl max m := by
  induction l with
  | nil => intro m p h; cases h
  | cons q qs ih =>
    intro m p h
    rcases List.mem_cons.1 h with rfl | h
    · exact le_trans (le_max_right m p) (le_foldl_max qs (max m p))
    · exact ih (max m q) p h

/-- The fold of the maximum is the seed or a member of the list. -/
lemma foldl_max_eq_or_mem (l : List ℚ) : ∀ m : ℚ, l.foldl max m = m ∨ l.foldl max m ∈ l := by
  induction l with
  | nil => intro m; exact Or.inl rfl
  | cons q qs ih =>
    intro m
    rcases ih (max m q) with h | h
    · rcases max_choice m q with hm | hm
      · rw [List.foldl_cons, h, hm]
        exact Or.inl rfl
      · rw [List.foldl_cons, h, hm]
        exact Or.inr (List.mem_cons_self q qs)
    · exact Or.inr (List.mem_cons_of_mem q h)

/-- The fold of the maximum is monotone in the seed. -/
lemma foldl_max_mono_seed (l : List ℚ) : ∀ {a b : ℚ}, a ≤ b → l.foldl max a ≤ l.foldl max b := by
  induction l with
  | nil => intro a b h; exact h
  | cons q qs ih => intro a b h; exact ih (max_le_max h (le_refl q))

/-- The fold of the maximum only grows along a sublist inclusion. -/
lemma foldl_max_le_of_sublist {l₁ l₂ : List ℚ} (h : l₁.Sublist l₂) :
    ∀ a : ℚ, l₁.foldl max a ≤ l₂.foldl max a := by
  induction h with
  | slnil => intro a; exact le_refl a
  | cons x _ ih =>
    intro a
    exact le_trans (ih a) (foldl_max_mono_seed _ (le_max_left a x))
  | cons₂ x _ ih => intro a; exact ih (max a x)

/-- Non-emptiness in `Bool` form. -/
lemma not_isEmpty_iff (l : List ℚ) : ((!l.isEmpty) = true) ↔ l ≠ [] := by
  cases l <;> simp

/-- Widening the window end can only add overlapping slots. -/
lemma overlappingValsFrom_sublist (base w now : Int) {e₁ e₂ : Int} (h : e₁ ≤ e₂) :
    ∀ (ps : List ℚ) (i : Nat),
      (overlappingValsFrom base w now e₁ i ps).Sublist
        (overlappingValsFrom base w now e₂ i ps) := by
  intro ps
  induction ps with
  | nil => intro i; exact List.Sublist.refl []
  | cons p ps ih =>
    intro i
    simp only [overlappingValsFrom]
    cases hb : overlapsB now e₁ (base + (i : Int) * w) w with
    | true =>
      have hb2 : overlapsB now e₂ (base + (i : Int) * w) w = true := by
        simp only [overlapsB, decide_eq_true_eq] at hb ⊢
        exact ⟨le_trans hb.1 h, hb.2⟩
      rw [hb2]
      simp only [if_true]
      exact (ih (i + 1)).cons₂ p
    | false =>
      cases hb2 : overlapsB now e₂ (base + (i : Int) * w) w with
      | true =>
        simp only [if_true, Bool.false_eq_true, if_false]
        exact (ih (i + 1)).cons p
      | false =>
        simp only [Bool.false_eq_true, if_false]
        exact ih (i + 1)

/-- Widening the window can only add slots considered by the query. -/
lemma graphOverlappingVals_sublist (g : GraphData) (now : Int) {d₁ d₂ : Int} (h : d₁ ≤ d₂) :
    (graphOverlappingVals g now d₁).Sublist (graphOverlappingVals g now d₂) := by
  unfold graphOverlappingVals
  have he : now + d₁ ≤ now + d₂ := by linarith
  refine List.Sublist.append (overlappingValsFrom_sublist _ _ _ he _ _) ?_
  by_cases h1 : g.startLowResolution ≠ 0
  · rw [if_pos h1, if_pos h1]
    exact overlappingValsFrom_sublist _ _ _ he _ _
  · rw [if_neg h1, if_neg h1]

/-- C1 counterexample: the claim quantifies over every graph and instant,
but the code returns a maximum that is not the maximum over the
overlapping slots in two families of inputs it covers: when a start
timestamp is zero (first input: the overlapping low-resolution slot of
value 7 is ignored because `startLowResolution = 0`; its series start, the
epoch, is a legitimate start instant under the claim), and when slot
values are negative (second input: the single overlapping slot has value
-1, yet 0 is returned). -/
theorem rain_C1_counterexample :
    (claimOverlappingVals ⟨1, 0, [], [7]⟩ 0 0 ≠ [] ∧
      (graphRainInWindow ⟨1, 0, [], [7]⟩ 0 0).1 ∉ claimOverlappingVals ⟨1, 0, [], [7]⟩ 0 0) ∧
    (claimOverlappingVals ⟨1000, 1, [-1], []⟩ 1000000000 0 ≠ [] ∧
      (graphRainInWindow ⟨1000, 1, [-1], []⟩ 1000000000 0).1 ∉
        claimOverlappingVals ⟨1000, 1, [-1], []⟩ 1000000000 0) := by decide

/-- C1 (amended): for every graph whose two start timestamps are nonzero
(zero being the code's encoding of an absent series) and whose
precipitation values are non-negative (the series invariant of the data
model), whenever at least one slot of either series overlaps the window —
a slot with start `s` and width `w` overlapping iff `s ≤ now+duration` and
`s+w > now` — the returned maxMM is exactly the maximum slot value over
all overlapping slots of both series: it is one of them and bounds all of
them. -/
theorem rain_C1_amended (g : GraphData) (now dur : Int)
    (h0 : g.start ≠ 0) (h1 : g.startLowResolution ≠ 0)
    (hnn : ∀ p ∈ claimOverlappingVals g now dur, 0 ≤ p)
    (hne : claimOverlappingVals g now dur ≠ []) :
    (graphRainInWindow g now dur).1 ∈ claimOverlappingVals g now dur ∧
      ∀ p ∈ claimOverlappingVals g now dur, p ≤ (graphRainInWindow g now dur).1 := by
  have hgv : claimOverlappingVals g now dur = graphOverlappingVals g now dur := by
    unfold claimOverlappingVals graphOverlappingVals
    rw [if_pos h1]
  rw [hgv] at hnn hne ⊢
  rw [graphRainInWindow_eq g now dur h0]
  simp only [foldl_maxStep_eq]
  constructor
  · rcases foldl_max_eq_or_mem (graphOverlappingVals g now dur) 0 with h | h
    · rcases List.exists_mem_of_ne_nil _ hne with ⟨q, hq⟩
      have hq0 : 0 ≤ q := hnn q hq
      have hqle : q ≤ (graphOverlappingVals g now dur).foldl max 0 :=
        mem_le_foldl_max _ 0 q hq
      rw [h] at hqle
      have hq' : q = 0 := le_antisymm hqle hq0
      rw [h, ← hq']
      exact hq
    · exact h
  · intro p hp
    exact mem_le_foldl_max _ 0 p hp

/-- C1 witness: a graph with one overlapping high-resolution slot of value
2 and one overlapping low-resolution slot of value 4; the query returns 4,
the maximum over both series. -/
theorem rain_C1_witness :
    ((1000 : Int) ≠ 0 ∧ (1600 : Int) ≠ 0 ∧
      (∀ p ∈ claimOverlappingVals ⟨1000, 1600, [2], [4]⟩ 1000000000 600000000000, 0 ≤ p) ∧
      claimOverlappingVals ⟨1000, 1600, [2], [4]⟩ 1000000000 600000000000 ≠ []) ∧
    ((graphRainInWindow ⟨1000, 1600, [2], [4]⟩ 1000000000 600000000000).1 ∈
        claimOverlappingVals ⟨1000, 1600, [2], [4]⟩ 1000000000 600000000000 ∧
      ∀ p ∈ claimOverlappingVals ⟨1000, 1600, [2], [4]⟩ 1000000000 600000000000,
        p ≤ (graphRainInWindow ⟨1000, 1600, [2], [4]⟩ 1000000000 600000000000).1) :=
  ⟨⟨by decide, by decide, by decide, by decide⟩,
    rain_C1_amended ⟨1000, 1600, [2], [4]⟩ 1000000000 600000000000
      (by decide) (by decide) (by decide) (by decide)⟩

/-- C2 counterexample: a graph whose high-resolution start timestamp is
zero but whose low-resolution series has a slot overlapping the window;
the claim requires `found = true`, but the code returns `false` because a
zero `start` aborts the query before either series is scanned. -/
theorem rain_C2_counterexample :
    claimOverlappingVals ⟨0, 1000, [], [7]⟩ 1000000000 0 ≠ [] ∧
      (graphRainInWindow ⟨0, 1000, [], [7]⟩ 1000000000 0).2 = false := by decide

/-- C2 (amended): for every graph whose two start timestamps are nonzero,
`found = true` iff at least one slot of either series overlaps the window
(in particular slots of value 0 count); and, unconditionally, a graph
whose two series are both empty yields `(0, false)`. -/
theorem rain_C2_amended (g : GraphData) (now dur : Int)
    (h0 : g.start ≠ 0) (h1 : g.startLowResolution ≠ 0) :
    ((graphRainInWindow g now dur).2 = true ↔ claimOverlappingVals g now dur ≠ []) ∧
      ∀ g' : GraphData, g'.precipitation10m = [] → g'.precipitation1h = [] →
        ∀ n d : Int, graphRainInWindow g' n d = (0, false) := by
  constructor
  · have hgv : claimOverlappingVals g now dur = graphOverlappingVals g now dur := by
      unfold claimOverlappingVals graphOverlappingVals
      rw [if_pos h1]
    rw [hgv, graphRainInWindow_eq g now dur h0]
    exact not_isEmpty_iff _
  · intro g' hhi hlo n d
    unfold graphRainInWindow
    by_cases h : g'.start = 0
    · rw [if_pos h]
    · rw [if_neg h, hhi, hlo]
      by_cases h2 : g'.startLowResolution ≠ 0 <;> simp [h2, scanSeries]

/-- C2 witness: a single overlapping dry slot (value 0) still yields
`found = true`, and the empty graph yields `(0, false)`. -/
theorem rain_C2_witness :
    ((2000 : Int) ≠ 0 ∧ (3000 : Int) ≠ 0) ∧
    ((graphRainInWindow ⟨2000, 3000, [0], []⟩ 2000000000 0).2 = true ↔
      claimOverlappingVals ⟨2000, 3000, [0], []⟩ 2000000000 0 ≠ []) ∧
    graphRainInWindow ⟨2000, 3000, [], []⟩ 2000000000 0 = (0, false) :=
  ⟨⟨by decide, by decide⟩,
    (rain_C2_amended ⟨2000, 3000, [0], []⟩ 2000000000 0 (by decide) (by decide)).1,
    (rain_C2_amended ⟨2000, 3000, [0], []⟩ 2000000000 0 (by decide) (by decide)).2
      ⟨2000, 3000, [], []⟩ rfl rfl 2000000000 0⟩

/-- C3 counterexample: the slot of the graph `⟨1, 0, [3], []⟩` starts at
`unixMilli 1 = 1000000` nanoseconds, which is exactly `now + duration` for
`now = 400000` and `duration = 600000`; the claim says such a slot is not
counted, yet the query counts it: it returns `(3, true)` although this is
the only slot. -/
theorem rain_C3_counterexample :
    unixMilli 1 + (0 : Int) * hiInterval = 400000 + 600000 ∧
      graphRainInWindow ⟨1, 0, [3], []⟩ 400000 600000 = (3, true) := by decide

/-- C3 (amended): a slot ending exactly at `now` is indeed not counted,
but a slot beginning exactly at `now + duration` IS counted (for any
non-negative duration and positive slot width), because the inclusion
test only requires `slotStart ≤ now + duration`; `graphRainInWindow`
aggregates exactly the slots selected by this test whenever its start
timestamp is nonzero. -/
theorem rain_C3_amended (now dur w slotStart : Int) (hw : 0 < w) (hd : 0 ≤ dur) :
    (slotStart + w = now → overlapsB now (now + dur) slotStart w = false) ∧
    (slotStart = now + dur → overlapsB now (now + dur) slotStart w = true) ∧
    ∀ g : GraphData, g.start ≠ 0 →
      graphRainInWindow g now dur =
        ((graphOverlappingVals g now dur).foldl maxStep 0,
          !(graphOverlappingVals g now dur).isEmpty) := by
  refine ⟨?_, ?_, fun g h0 => graphRainInWindow_eq g now dur h0⟩
  · intro h
    simp only [overlapsB, decide_eq_false_iff_not]
    intro hc
    rw [h] at hc
    exact absurd hc.2 (lt_irrefl now)
  · intro h
    simp only [overlapsB, decide_eq_true_eq]
    rw [h]
    exact ⟨le_refl _, by linarith⟩

/-- C3 witness: with `now = hiInterval`, `duration = 0` and slot width
`hiInterval`, the slot starting at 0 ends exactly at `now` and is excluded,
while the slot starting exactly at `now + duration` is included. -/
theorem rain_C3_witness :
    ((0 : Int) < hiInterval ∧ (0 : Int) ≤ 0) ∧
    overlapsB hiInterval (hiInterval + 0) 0 hiInterval = false ∧
    overlapsB hiInterval (hiInterval + 0) (hiInterval + 0) hiInterval = true :=
  ⟨⟨by decide, by decide⟩,
    (rain_C3_amended hiInterval 0 hiInterval 0 (by decide) (by decide)).1 (by decide),
    (rain_C3_amended hiInterval 0 hiInterval (hiInterval + 0) (by decide) (by decide)).2.1 rfl⟩

/-- C9: `graphRainInWindow` is monotone in the window duration: a longer
window yields a maximum at least as large, and preserves `found = true`. -/
theorem rain_C9 (g : GraphData) (now d1 d2 : Int) (h : d1 ≤ d2) :
    (graphRainInWindow g now d1).1 ≤ (graphRainInWindow g now d2).1 ∧
      ((graphRainInWindow g now d1).2 = true → (graphRainInWindow g now d2).2 = true) := by
  by_cases h0 : g.start = 0
  · unfold graphRainInWindow
    simp only [if_pos h0]
    exact ⟨le_refl 0, fun h => h⟩
  · rw [graphRainInWindow_eq g now d1 h0, graphRainInWindow_eq g now d2 h0]
    have hsub := graphOverlappingVals_sublist g now h
    constructor
    · simp only [foldl_maxStep_eq]
      exact foldl_max_le_of_sublist hsub 0
    · simp only [not_isEmpty_iff]
      intro hne hB
      rw [hB] at hsub
      exact hne (List.sublist_nil.mp hsub)

/-- C9 witness: growing the window from 0 to ten minutes around a single
rainy slot preserves the maximum and the found flag. -/
theorem rain_C9_witness :
    (0 : Int) ≤ 600000000000 ∧
    ((graphRainInWindow ⟨1000, 1, [5], []⟩ 1000000000 0).1 ≤
        (graphRainInWindow ⟨1000, 1, [5], []⟩ 1000000000 600000000000).1 ∧
      ((graphRainInWindow ⟨1000, 1, [5], []⟩ 1000000000 0).2 = true →
        (graphRainInWindow ⟨1000, 1, [5], []⟩ 1000000000 600000000000).2 = true)) :=
  ⟨by decide, rain_C9 ⟨1000, 1, [5], []⟩ 1000000000 0 600000000000 (by decide)⟩

/-- C10: the maximum returned by `graphRainInWindow` is never negative,
whatever the precipitation arrays contain: the running maximum starts at 0
and is only replaced by strictly larger values. -/
theorem rain_C10 (g : GraphData) (now dur : Int) : 0 ≤ (graphRainInWindow g now dur).1 := by
  by_cases h0 : g.start = 0
  · unfold graphRainInWindow
    rw [if_pos h0]
  · rw [graphRainInWindow_eq g now dur h0]
    simp only [foldl_maxStep_eq]
    exact le_foldl_max _ 0

/-- The condition under which `checkRain` falls through to the forecast
fallback: no graph, an empty high-resolution series, or a window query
reporting `found = false`. -/
def graphPathFails (detail : PLZDetail) (now within : Int) : Prop :=
  detail.graph = none ∨
    ∃ g, detail.graph = some g ∧
      (g.precipitation10m = [] ∨ (graphRainInWindow g now (within * minuteNs)).2 = false)

/-- When the graph path fails, `checkRain` evaluates to the forecast
fallback. -/
lemma checkRain_of_graphPathFails (plz within now : Int) (detail : PLZDetail)
    (hfail : graphPathFails detail now within) :
    checkRain plz within detail now =
      match detail.forecast with
      | today :: _ =>
        { plz := plz, withinMinutes := within,
          rainExpected := decide ((0 : ℚ) < today.precipitation),
          maxRainMM := today.precipitation,
          message :=
            if (0 : ℚ) < today.precipitation then msgRainPossibleToday today.precipitation
            else msgNoRainToday }
      | [] =>
        { plz := plz, withinMinutes := within, rainExpected := false, maxRainMM := 0,
          message := msgUnavailable } := by
  rcases hfail with hnone | ⟨g, hg, hcase⟩
  · simp [checkRain, hnone]
  · rcases hcase with hempty | hfalse
    · simp [checkRain, hg, hempty]
    · rcases Nat.eq_zero_or_pos g.precipitation10m.length with hlen | hlen
      · simp [checkRain, hg, hlen]
      · simp [checkRain, hg, Nat.pos_iff_ne_zero.1 hlen, hfalse]

/-- C4: when the graph is present, its high-resolution series non-empty
and the window query reports `found = true` with maximum `maxMM`,
`checkRain` reports `MaxRainMM = maxMM` and `RainExpected` exactly when
`maxMM > 0`, and its result does not depend on the forecast list at all —
even when `maxMM = 0`. -/
theorem rain_C4 (plz within now : Int) (detail : PLZDetail) (g : GraphData)
    (hg : detail.graph = some g) (hne : g.precipitation10m ≠ [])
    (hfound : (graphRainInWindow g now (within * minuteNs)).2 = true) :
    (checkRain plz within detail now).maxRainMM =
        (graphRainInWindow g now (within * minuteNs)).1 ∧
      ((checkRain plz within detail now).rainExpected = true ↔
        0 < (graphRainInWindow g now (within * minuteNs)).1) ∧
      ∀ fc : List DayForecast,
        checkRain plz within { detail with forecast := fc } now =
          checkRain plz within detail now := by
  have hlen : 0 < g.precipitation10m.length := List.length_pos.2 hne
  have hcr : ∀ d' : PLZDetail, d'.graph = some g →
      checkRain plz within d' now =
        { plz := plz, withinMinutes := within,
          rainExpected := decide (0 < (graphRainInWindow g now (within * minuteNs)).1),
          maxRainMM := (graphRainInWindow g now (within * minuteNs)).1,
          message :=
            if 0 < (graphRainInWindow g now (within * minuteNs)).1 then
              msgRainExpected (graphRainInWindow g now (within * minuteNs)).1 within
            else msgNoRain within } := by
    intro d' hg'
    simp [checkRain, hg', hlen, hfound]
  refine ⟨?_, ?_, ?_⟩
  · rw [hcr detail hg]
  · rw [hcr detail hg]
    simp
  · intro fc
    rw [hcr { detail with forecast := fc } hg, hcr detail hg]

/-- C4 witness: a graph whose only slot overlaps the window with value 0;
the query reports `(0, true)`, `checkRain` confidently reports no rain and
ignores a rainy forecast entry entirely. -/
theorem rain_C4_witness :
    ((⟨⟨0, 0, 0⟩, [⟨"2026-02-20", 0, 0, 0, 9, 0, 0⟩], [],
          some ⟨1000, 1, [0], []⟩⟩ : PLZDetail).graph = some ⟨1000, 1, [0], []⟩ ∧
      ([0] : List ℚ) ≠ [] ∧
      (graphRainInWindow ⟨1000, 1, [0], []⟩ 1000000000 (30 * minuteNs)).2 = true) ∧
    ((checkRain 8000 30
          ⟨⟨0, 0, 0⟩, [⟨"2026-02-20", 0, 0, 0, 9, 0, 0⟩], [], some ⟨1000, 1, [0], []⟩⟩
          1000000000).maxRainMM =
        (graphRainInWindow ⟨1000, 1, [0], []⟩ 1000000000 (30 * minuteNs)).1 ∧
      checkRain 8000 30
          ⟨⟨0, 0, 0⟩, [], [], some ⟨1000, 1, [0], []⟩⟩ 1000000000 =
        checkRain 8000 30
          ⟨⟨0, 0, 0⟩, [⟨"2026-02-20", 0, 0, 0, 9, 0, 0⟩], [], some ⟨1000, 1, [0], []⟩⟩
          1000000000) := by
  have h := rain_C4 8000 30 1000000000
    ⟨⟨0, 0, 0⟩, [⟨"2026-02-20", 0, 0, 0, 9, 0, 0⟩], [], some ⟨1000, 1, [0], []⟩⟩
    ⟨1000, 1, [0], []⟩ rfl (by decide) (by decide)
  exact ⟨⟨rfl, by decide, by decide⟩, h.1, h.2.2 []⟩

/-- C5: whenever the graph path produces no result and the forecast list
is non-empty, `checkRain` uses the first entry's precipitation total:
`MaxRainMM` equals it, `RainExpected` iff it is positive, and the message
contains the reduced-confidence marker "hourly data unavailable". -/
theorem rain_C5 (plz within now : Int) (detail : PLZDetail) (today : DayForecast)
    (rest : List DayForecast) (hfc : detail.forecast = today :: rest)
    (hfail : graphPathFails detail now within) :
    (checkRain plz within detail now).maxRainMM = today.precipitation ∧
      ((checkRain plz within detail now).rainExpected = true ↔ 0 < today.precipitation) ∧
      List.IsInfix "hourly data unavailable".data
        (checkRain plz within detail now).message.data := by
  rw [checkRain_of_graphPathFails plz within now detail hfail, hfc]
  refine ⟨rfl, by simp, ?_⟩
  by_cases hp : (0 : ℚ) < today.precipitation
  · show List.IsInfix "hourly data unavailable".data
      (if (0 : ℚ) < today.precipitation then msgRainPossibleToday today.precipitation
        else msgNoRainToday).data
    rw [if_pos hp]
    unfold msgRainPossibleToday
    have h1 : List.IsInfix "hourly data unavailable".data
        " mm forecast (hourly data unavailable)".data := by decide
    have h2 : List.IsSuffix " mm forecast (hourly data unavailable)".data
        ("Rain possible today: " ++ fmt1 today.precipitation ++
          " mm forecast (hourly data unavailable)").data := by
      rw [String.data_append]
      exact List.suffix_append _ _
    exact h1.trans h2.isInfix
  · show List.IsInfix "hourly data unavailable".data
      (if (0 : ℚ) < today.precipitation then msgRainPossibleToday today.precipitation
        else msgNoRainToday).data
    rw [if_neg hp]
    decide

/-- C5 witness: the concrete scenario of the claim — no graph, forecast
`[{precip: 5.5}]`, a 30-minute window — yields `MaxRainMM = 5.5`,
`RainExpected = true` and a reduced-confidence message. -/
theorem rain_C5_witness :
    ((⟨⟨0, 0, 0⟩, [⟨"2026-02-20", 0, 0, 0, mkRat 11 2, 0, 0⟩], [],
          none⟩ : PLZDetail).forecast = ⟨"2026-02-20", 0, 0, 0, mkRat 11 2, 0, 0⟩ :: [] ∧
      graphPathFails ⟨⟨0, 0, 0⟩, [⟨"2026-02-20", 0, 0, 0, mkRat 11 2, 0, 0⟩], [], none⟩
        0 30) ∧
    ((checkRain 8000 30
          ⟨⟨0, 0, 0⟩, [⟨"2026-02-20", 0, 0, 0, mkRat 11 2, 0, 0⟩], [], none⟩ 0).maxRainMM =
        mkRat 11 2 ∧
      ((checkRain 8000 30
          ⟨⟨0, 0, 0⟩, [⟨"2026-02-20", 0, 0, 0, mkRat 11 2, 0, 0⟩], [], none⟩ 0).rainExpected =
          true ↔ (0 : ℚ) < mkRat 11 2) ∧
      List.IsInfix "hourly data unavailable".data
        (checkRain 8000 30
          ⟨⟨0, 0, 0⟩, [⟨"2026-02-20", 0, 0, 0, mkRat 11 2, 0, 0⟩], [], none⟩ 0).message.data) :=
  ⟨⟨rfl, Or.inl rfl⟩,
    rain_C5 8000 30 0 ⟨⟨0, 0, 0⟩, [⟨"2026-02-20", 0, 0, 0, mkRat 11 2, 0, 0⟩], [], none⟩
      ⟨"2026-02-20", 0, 0, 0, mkRat 11 2, 0, 0⟩ [] rfl (Or.inl rfl)⟩

/-- C6: with no usable graph data and no forecast entry at all, `checkRain`
reports no rain, a zero maximum and the data-unavailable message, which
differs from both "no rain expected" messages of the data-backed
branches. -/
theorem rain_C6 (plz within now : Int) (detail : PLZDetail)
    (hfc : detail.forecast = []) (hfail : graphPathFails detail now within) :
    checkRain plz within detail now =
        { plz := plz, withinMinutes := within, rainExpected := false, maxRainMM := 0,
          message := msgUnavailable } ∧
      msgUnavailable ≠ msgNoRain within ∧ msgUnavailable ≠ msgNoRainToday := by
  refine ⟨?_, ?_, by decide⟩
  · rw [checkRain_of_graphPathFails plz within now detail hfail, hfc]
  · intro hEq
    have h2 : (msgNoRain within).length =
        "No rain expected in the next ".length + (toString within).length + " min".length := by
      unfold msgNoRain
      rw [String.length_append, String.length_append]
    have h3 : "No rain expected in the next ".length = 29 := by decide
    have h4 : " min".length = 4 := by decide
    have h5 : msgUnavailable.length = 21 := by decide
    rw [hEq] at h5
    omega

/-- C6 witness: no graph and no forecast yield the unavailable-data
result. -/
theorem rain_C6_witness :
    ((⟨⟨0, 0, 0⟩, [], [], none⟩ : PLZDetail).forecast = [] ∧
      graphPathFails ⟨⟨0, 0, 0⟩, [], [], none⟩ 0 30) ∧
    (checkRain 8000 30 ⟨⟨0, 0, 0⟩, [], [], none⟩ 0 =
        { plz := 8000, withinMinutes := 30, rainExpected := false, maxRainMM := 0,
          message := msgUnavailable } ∧
      msgUnavailable ≠ msgNoRain 30 ∧ msgUnavailable ≠ msgNoRainToday) :=
  ⟨⟨rfl, Or.inl rfl⟩, rain_C6 8000 30 0 ⟨⟨0, 0, 0⟩, [], [], none⟩ rfl (Or.inl rfl)⟩

/-- C7: `checkRain` is total and never fails: the variant in which every
operation that can panic in Go (graph pointer dereference, `Forecast[0]`
indexing) is explicit returns a defined result — the very result of
`checkRain` — on every input combination, including a missing graph, empty
series and an empty forecast list. -/
theorem rain_C7 (plz within now : Int) (detail : PLZDetail) :
    checkRainChecked plz within detail now = some (checkRain plz within detail now) := by
  unfold checkRain checkRainChecked
  rcases hg : detail.graph with _ | g
  · rcases hf : detail.forecast with _ | ⟨t, ts⟩ <;> simp [hf]
  · by_cases hlen : 0 < g.precipitation10m.length
    · by_cases hq : (graphRainInWindow g now (within * minuteNs)).2 = true
      · simp [hlen, hq]
      · rcases hf : detail.forecast with _ | ⟨t, ts⟩ <;>
          simp [hf, hlen, hq]
    · rcases hf : detail.forecast with _ | ⟨t, ts⟩ <;>
        simp [hf, hlen]

/-- C8: `graphRainInWindow` and `checkRain` are deterministic pure
functions of their arguments: two calls with identical inputs yield
identical outputs, there being no shared mutable state in the embedding. -/
theorem rain_C8 (g g' : GraphData) (now now' dur dur' plz plz' within within' : Int)
    (detail detail' : PLZDetail)
    (h1 : g = g') (h2 : now = now') (h3 : dur = dur')
    (h4 : plz = plz') (h5 : within = within') (h6 : detail = detail') :
    graphRainInWindow g now dur = graphRainInWindow g' now' dur' ∧
      checkRain plz within detail now = checkRain plz' within' detail' now' := by
  subst h1 h2 h3 h4 h5 h6
  exact ⟨rfl, rfl⟩

/-- C8 witness: two identical calls at a concrete input agree. -/
theorem rain_C8_witness :
    graphRainInWindow ⟨1000, 1, [5], []⟩ 1000000000 0 =
        graphRainInWindow ⟨1000, 1, [5], []⟩ 1000000000 0 ∧
      checkRain 8000 30 ⟨⟨0, 0, 0⟩, [], [], none⟩ 0 =
        checkRain 8000 30 ⟨⟨0, 0, 0⟩, [], [], none⟩ 0 :=
  rain_C8 ⟨1000, 1, [5], []⟩ ⟨1000, 1, [5], []⟩ 1000000000 1000000000 0 0 8000 8000 30 30
    ⟨⟨0, 0, 0⟩, [], [], none⟩ ⟨⟨0, 0, 0⟩, [], [], none⟩ rfl rfl rfl rfl rfl rfl

end MeteoCli
